import Mathlib

/-!
Verification of the violation-detection and violator-registry core of the
Reaktor birdnest scraper (`scraping.py`).

Embedding choices, all taken from the source:

* Coordinates and distances are exact rationals (`ℚ`).  The source computes
  `distance = sqrt((250000-x)^2+(250000-y)^2)` (a float) and then only ever
  compares distances (`<=`, `>`) and takes the smaller of two; since
  `Real.sqrt` is strictly monotone on nonnegative arguments, the embedding
  carries the squared distance (field `closestDistanceSq`) and performs the
  same comparisons on squares, which is order-equivalent.  Theorems that the
  spec states about the distance itself go through `Real.sqrt` of the stored
  square.
* Timestamps are integers counting microseconds (Python `datetime` has
  microsecond resolution).  `timedelta` subtraction and its `.seconds`
  attribute are modelled exactly: `.seconds` of a normalized timedelta is
  the floored sub-day remainder, `(delta % 86400000000) / 1000000` with
  floor division and a nonnegative remainder, as in Python.
* Python dicts keyed by strings are association lists; `d[k] = v` keeps the
  position of an existing key and appends a fresh key, as insertion-ordered
  Python dicts do.
* The external HTTP fetches (`requests.get` for the drone snapshot and for
  each pilot) are oracles passed in as parameters; a raised exception is
  `Except.error ()`.  The persisted `pilot_information.json` file is a
  `Store`: `missing` (the `open` call raises `FileNotFoundError`),
  `corrupt` (`json.load` raises `JSONDecodeError`), or `good registry`.
* The clock reads `datetime.datetime.now()` made during one cycle are
  modelled by the single parameter `now`.
-/

/-- One `<drone>` element of the snapshot: serial number and position,
as read by `check_forbidden_coords`. -/
structure Drone where
  serialNumber : String
  positionX : ℚ
  positionY : ℚ
deriving DecidableEq

/-- The pilot fields fetched from
`https://assignments.reaktor.com/birdnest/pilots/<serial>` that the program
uses. -/
structure PilotInfo where
  pilotId : String
  firstName : String
  lastName : String
  phoneNumber : String
  email : String
deriving DecidableEq

/-- One value of the persisted `pilot_information.json` mapping: the pilot's
json object together with the `timeOfViolation` and `closestDistance` keys
the program adds.  `closestDistanceSq` holds the square of the stored
distance (see the header comment). -/
structure PilotRecord where
  pilot : PilotInfo
  timeOfViolation : ℤ
  closestDistanceSq : ℚ
deriving DecidableEq

/-- A Python dict keyed by strings, as an insertion-ordered association
list. -/
abbrev Registry := List (String × PilotRecord)

/-- The state of the `pilot_information.json` file. -/
inductive Store where
  | missing
  | corrupt
  | good (registry : Registry)
deriving DecidableEq

/-- Lookup `d[k]` / `k in d.keys()` on a Python dict. -/
def dictFind {α : Type} : List (String × α) → String → Option α
  | [], _ => none
  | (k', v) :: rest, k => if k' = k then some v else dictFind rest k

/-- Assignment `d[k] = v` on a Python dict: replace in place if the key
exists, append otherwise. -/
def dictInsert {α : Type} (k : String) (v : α) : List (String × α) → List (String × α)
  | [] => [(k, v)]
  | (k', v') :: rest => if k' = k then (k, v) :: rest else (k', v') :: dictInsert k v rest

/-- The squared distance from `(x, y)` to the nest `(250000, 250000)`; the
source computes `sqrt` of this quantity (line 76 of `scraping.py`). -/
def distSq (x y : ℚ) : ℚ :=
  (250000 - x) * (250000 - x) + (250000 - y) * (250000 - y)

/-- The body of the loop in `check_forbidden_coords`: the guard
`150000 < x_coord < 350000`, then the distance computation and the test
`distance <= 100000` (on squares: `distSq ≤ 100000·100000`), then
`illegal_drone_ids[ser_num] = [str(time), distance]`. -/
def check_step (now : ℤ) (acc : List (String × (ℤ × ℚ))) (d : Drone) :
    List (String × (ℤ × ℚ)) :=
  if 150000 < d.positionX ∧ d.positionX < 350000 then
    if distSq d.positionX d.positionY ≤ 100000 * 100000 then
      dictInsert d.serialNumber (now, distSq d.positionX d.positionY) acc
    else acc
  else acc

/-- The loop of `check_forbidden_coords` over the drone list, accumulating
the `illegal_drone_ids` dict. -/
def check_forbidden_coords_from (now : ℤ) :
    List (String × (ℤ × ℚ)) → List Drone → List (String × (ℤ × ℚ))
  | acc, [] => acc
  | acc, d :: rest => check_forbidden_coords_from now (check_step now acc d) rest

/-- The function `check_forbidden_coords` (lines 28-85): returns the dict
mapping each
violating drone's serial number to the pair (time of violation, distance);
the distance slot carries the square of the source's float distance. -/
def check_forbidden_coords (now : ℤ) (drones : List Drone) :
    List (String × (ℤ × ℚ)) :=
  check_forbidden_coords_from now [] drones

/-- The first loop of `get_pilot_data` (lines 114-134): for each serial in
`drones_in_nfz`, fetch the pilot json (a raised exception propagates and
aborts everything), add `timeOfViolation` and `closestDistance`, and store
under `pilot_data[json_object["pilotId"]]`. -/
def build_pilot_data_from (resolve : String → Except Unit PilotInfo) :
    List (String × PilotRecord) → List (String × (ℤ × ℚ)) →
      Except Unit (List (String × PilotRecord))
  | acc, [] => Except.ok acc
  | acc, entry :: rest =>
    match resolve entry.1 with
    | Except.error e => Except.error e
    | Except.ok p =>
        build_pilot_data_from resolve
          (dictInsert p.pilotId ⟨p, entry.2.1, entry.2.2⟩ acc) rest

/-- The per-cycle `pilot_data` dict of `get_pilot_data`. -/
def build_pilot_data (resolve : String → Except Unit PilotInfo)
    (dronesInNfz : List (String × (ℤ × ℚ))) :
    Except Unit (List (String × PilotRecord)) :=
  build_pilot_data_from resolve [] dronesInNfz

/-- The body of the merge loop of `get_pilot_data` (lines 152-167): if the
pilot is already in `saved_pilot_info`, overwrite `timeOfViolation`
unconditionally and overwrite `closestDistance` only when the saved one is
strictly larger; otherwise insert the new record. -/
def merge_one (saved : Registry) (pid : String) (r : PilotRecord) : Registry :=
  match dictFind saved pid with
  | some old =>
      dictInsert pid
        { old with
            timeOfViolation := r.timeOfViolation
            closestDistanceSq :=
              if old.closestDistanceSq > r.closestDistanceSq then
                r.closestDistanceSq
              else old.closestDistanceSq }
        saved
  | none => dictInsert pid r saved

/-- The merge loop of `get_pilot_data` over `pilot_data`, in dict insertion
order. -/
def merge_all : Registry → List (String × PilotRecord) → Registry
  | saved, [] => saved
  | saved, (pid, r) :: rest => merge_all (merge_one saved pid r) rest

/-- Python `timedelta.seconds` of the difference of two timestamps given in
microseconds: the timedelta is normalized so that `0 ≤ seconds < 86400`,
and sub-second microseconds are dropped.  `%` and `/` are integer floor
operations with nonnegative remainder, as in Python. -/
def td_seconds (delta : ℤ) : ℤ := delta % 86400000000 / 1000000

/-- The expiry sweep of `get_pilot_data` (lines 177-204): collect every
pilot with `difference.seconds > 600` into `to_be_deleted`, then delete
them; the net effect is an order-preserving filter. -/
def expire (reg : Registry) (now : ℤ) : Registry :=
  reg.filter (fun e => decide (¬ 600 < td_seconds (now - e.2.timeOfViolation)))

/-- The function `get_pilot_data` (lines 89-209): build `pilot_data` from
the fetches
(first loop; a fetch failure propagates), then open the store (a missing
file raises an uncaught `FileNotFoundError`; a `JSONDecodeError` is caught,
leaving `saved_pilot_info` empty and skipping the merge loop, which sits
inside the `try`), merge, expire, and write the file.  The returned store
is the file as written. -/
def get_pilot_data (resolve : String → Except Unit PilotInfo) (now : ℤ)
    (dronesInNfz : List (String × (ℤ × ℚ))) (store : Store) :
    Except Unit Store :=
  match build_pilot_data resolve dronesInNfz with
  | Except.error e => Except.error e
  | Except.ok pilotData =>
    match store with
    | Store.missing => Except.error ()
    | Store.corrupt => Except.ok (Store.good (expire [] now))
    | Store.good saved =>
        Except.ok (Store.good (expire (merge_all saved pilotData) now))

/-- The function `update_web_page` (lines 306-329): fetch the snapshot (a
failure
propagates before anything else runs), detect violations, run
`get_pilot_data` (a failure there propagates, leaving the store as it
was), and return the resulting store state.  `convert_info_into_html`
only reads the store. -/
def update_web_page (droneData : Except Unit (List Drone))
    (resolve : String → Except Unit PilotInfo) (now : ℤ) (store : Store) :
    Store :=
  match droneData with
  | Except.error _ => store
  | Except.ok drones =>
    match get_pilot_data resolve now (check_forbidden_coords now drones) store with
    | Except.error _ => store
    | Except.ok newStore => newStore

/-! ### Helper lemmas about the dict operations -/

lemma mem_dictInsert {α : Type} {k : String} {v : α} :
    ∀ {l : List (String × α)} {e : String × α},
      e ∈ dictInsert k v l → e = (k, v) ∨ e ∈ l := by
  intro l
  induction l with
  | nil =>
      intro e he
      simpa [dictInsert] using he
  | cons hd tl ih =>
      intro e he
      rcases hd with ⟨k', v'⟩
      by_cases hk : k' = k
      · simp only [dictInsert, if_pos hk, List.mem_cons] at he
        rcases he with he | he
        · exact Or.inl he
        · exact Or.inr (List.mem_cons_of_mem _ he)
      · simp only [dictInsert, if_neg hk, List.mem_cons] at he
        rcases he with he | he
        · exact Or.inr (he ▸ List.mem_cons_self _ _)
        · rcases ih he with h | h
          · exact Or.inl h
          · exact Or.inr (List.mem_cons_of_mem _ h)

lemma dictFind_dictInsert {α : Type} (k : String) (v : α) (l : List (String × α)) :
    dictFind (dictInsert k v l) k = some v := by
  induction l with
  | nil => simp [dictInsert, dictFind]
  | cons hd tl ih =>
      rcases hd with ⟨k', v'⟩
      by_cases hk : k' = k
      · simp [dictInsert, dictFind, hk]
      · simp [dictInsert, dictFind, hk, ih]

lemma dictInsert_of_find_none {α : Type} {k : String} (v : α) :
    ∀ {l : List (String × α)}, dictFind l k = none →
      dictInsert k v l = l ++ [(k, v)] := by
  intro l
  induction l with
  | nil =>
      intro h
      simp [dictInsert]
  | cons hd tl ih =>
      intro h
      rcases hd with ⟨k', v'⟩
      by_cases hk : k' = k
      · simp [dictFind, hk] at h
      · simp only [dictFind, if_neg hk] at h
        simp [dictInsert, hk, ih h]

lemma dictFind_mem {α : Type} {k : String} {v : α} :
    ∀ {l : List (String × α)}, dictFind l k = some v → (k, v) ∈ l := by
  intro l
  induction l with
  | nil =>
      intro h
      simp [dictFind] at h
  | cons hd tl ih =>
      intro h
      rcases hd with ⟨k', v'⟩
      by_cases hk : k' = k
      · simp only [dictFind, if_pos hk] at h
        subst hk
        obtain rfl : v' = v := Option.some.inj h
        exact List.mem_cons_self _ _
      · simp only [dictFind, if_neg hk] at h
        exact List.mem_cons_of_mem _ (ih h)

lemma if_gt_eq_min (a b : ℚ) : (if a > b then b else a) = min a b := by
  rcases lt_or_ge b a with h | h
  · rw [if_pos h, min_eq_right (le_of_lt h)]
  · rw [if_neg (not_lt.mpr h), min_eq_left h]

/-! ### Invariants of the geofence check -/

lemma check_step_mem {now : ℤ} {acc : List (String × (ℤ × ℚ))} {d : Drone}
    {e : String × (ℤ × ℚ)} (he : e ∈ check_step now acc d) :
    e ∈ acc ∨ (e.2.1 = now ∧ 0 ≤ e.2.2 ∧ e.2.2 ≤ 100000 * 100000) := by
  unfold check_step at he
  split at he
  · split at he
    · rcases mem_dictInsert he with h | h
      · subst h
        refine Or.inr ⟨rfl, ?_, by assumption⟩
        exact add_nonneg (mul_self_nonneg _) (mul_self_nonneg _)
      · exact Or.inl h
    · exact Or.inl he
  · exact Or.inl he

lemma check_from_mem {now : ℤ} {drones : List Drone} :
    ∀ {acc : List (String × (ℤ × ℚ))} {e : String × (ℤ × ℚ)},
      (∀ a ∈ acc, a.2.1 = now ∧ 0 ≤ a.2.2 ∧ a.2.2 ≤ 100000 * 100000) →
      e ∈ check_forbidden_coords_from now acc drones →
      e.2.1 = now ∧ 0 ≤ e.2.2 ∧ e.2.2 ≤ 100000 * 100000 := by
  induction drones with
  | nil =>
      intro acc e hacc he
      exact hacc e he
  | cons d rest ih =>
      intro acc e hacc he
      refine ih ?_ he
      intro a ha
      rcases check_step_mem ha with h | h
      · exact hacc a h
      · exact h

lemma check_mem {now : ℤ} {drones : List Drone} {e : String × (ℤ × ℚ)}
    (he : e ∈ check_forbidden_coords now drones) :
    e.2.1 = now ∧ 0 ≤ e.2.2 ∧ e.2.2 ≤ 100000 * 100000 :=
  check_from_mem (by intro a ha; simp at ha) he

/-! ### Bridge between the stored squared distance and the real distance -/

lemma sqrt_cast_le_iff (q : ℚ) :
    Real.sqrt (q : ℝ) ≤ 100000 ↔ q ≤ 100000 * 100000 := by
  rw [Real.sqrt_le_iff]
  have hcast : ((100000 * 100000 : ℚ) : ℝ) = 100000 ^ 2 := by norm_num
  constructor
  · rintro ⟨-, h⟩
    rw [← hcast] at h
    exact_mod_cast h
  · intro h
    refine ⟨by norm_num, ?_⟩
    rw [← hcast]
    exact_mod_cast h

lemma distSq_cast (x y : ℚ) :
    ((distSq x y : ℚ) : ℝ) =
      ((250000 : ℝ) - (x : ℝ)) ^ 2 + ((250000 : ℝ) - (y : ℝ)) ^ 2 := by
  unfold distSq
  push_cast
  ring

/-! ### Propagation lemmas for the pilot-data build, the merge and the expiry -/

lemma build_pilot_data_from_error {resolve : String → Except Unit PilotInfo} :
    ∀ {batch : List (String × (ℤ × ℚ))} {acc : List (String × PilotRecord)},
      (∃ e ∈ batch, resolve e.1 = Except.error ()) →
      build_pilot_data_from resolve acc batch = Except.error () := by
  intro batch
  induction batch with
  | nil =>
      intro acc h
      simp at h
  | cons b rest ih =>
      intro acc h
      cases hr : resolve b.1 with
      | error u =>
          cases u
          simp [build_pilot_data_from, hr]
      | ok p =>
          rcases h with ⟨e, he, hfail⟩
          rcases List.mem_cons.mp he with rfl | he'
          · rw [hr] at hfail
            exact absurd hfail (by simp)
          · simp only [build_pilot_data_from, hr]
            exact ih ⟨e, he', hfail⟩

lemma build_pilot_data_from_mem {resolve : String → Except Unit PilotInfo}
    {P : ℚ → Prop} :
    ∀ {batch : List (String × (ℤ × ℚ))} {acc pd : List (String × PilotRecord)},
      (∀ e ∈ batch, P e.2.2) →
      (∀ r ∈ acc, P r.2.closestDistanceSq) →
      build_pilot_data_from resolve acc batch = Except.ok pd →
      ∀ r ∈ pd, P r.2.closestDistanceSq := by
  intro batch
  induction batch with
  | nil =>
      intro acc pd hb hacc h
      obtain rfl : acc = pd := Except.ok.inj h
      exact hacc
  | cons b rest ih =>
      intro acc pd hb hacc h
      cases hr : resolve b.1 with
      | error u =>
          rw [build_pilot_data_from, hr] at h
          cases h
      | ok p =>
          rw [build_pilot_data_from, hr] at h
          refine ih (fun e he => hb e (List.mem_cons_of_mem _ he)) ?_ h
          intro r hr'
          rcases mem_dictInsert hr' with rfl | hmem
          · exact hb b (List.mem_cons_self _ _)
          · exact hacc r hmem

lemma merge_one_mem {P : ℚ → Prop} {saved : Registry} {pid : String}
    {nr : PilotRecord} (hs : ∀ e ∈ saved, P e.2.closestDistanceSq)
    (hn : P nr.closestDistanceSq) :
    ∀ e ∈ merge_one saved pid nr, P e.2.closestDistanceSq := by
  intro e he
  unfold merge_one at he
  cases hf : dictFind saved pid with
  | none =>
      rw [hf] at he
      rcases mem_dictInsert he with rfl | hmem
      · exact hn
      · exact hs e hmem
  | some old =>
      rw [hf] at he
      rcases mem_dictInsert he with rfl | hmem
      · show P (if old.closestDistanceSq > nr.closestDistanceSq then
            nr.closestDistanceSq else old.closestDistanceSq)
        split
        · exact hn
        · exact hs (pid, old) (dictFind_mem hf)
      · exact hs e hmem

lemma merge_all_mem {P : ℚ → Prop} :
    ∀ {pd : List (String × PilotRecord)} {saved : Registry},
      (∀ e ∈ saved, P e.2.closestDistanceSq) →
      (∀ r ∈ pd, P r.2.closestDistanceSq) →
      ∀ e ∈ merge_all saved pd, P e.2.closestDistanceSq := by
  intro pd
  induction pd with
  | nil =>
      intro saved hs _ e he
      exact hs e he
  | cons hd rest ih =>
      intro saved hs hp e he
      rcases hd with ⟨pid, nr⟩
      rw [merge_all] at he
      refine ih ?_ (fun r hr => hp r (List.mem_cons_of_mem _ hr)) e he
      exact merge_one_mem hs (hp (pid, nr) (List.mem_cons_self _ _))

lemma expire_mem {reg : Registry} {now : ℤ} {e : String × PilotRecord}
    (he : e ∈ expire reg now) : e ∈ reg :=
  (List.mem_filter.mp he).1

/-! ### Concrete fixtures used by witnesses and counterexamples -/

/-- A concrete pilot json object. -/
def pilotP : PilotInfo := ⟨"P", "Pia", "Pilot", "0400123456", "piaexample"⟩

/-- A pilot resolver for which every serial number resolves to `pilotP`. -/
def resolveP : String → Except Unit PilotInfo := fun _ => Except.ok pilotP

/-- A pilot resolver that succeeds on serial `"A"` and raises on every
other serial. -/
def resolveAB : String → Except Unit PilotInfo :=
  fun s => if s = "A" then Except.ok pilotP else Except.error ()

/-- A drone at the nest itself, distance 0. -/
def droneA : Drone := ⟨"A", 250000, 250000⟩

/-- A drone inside the zone at squared distance `2·10000²`. -/
def droneB : Drone := ⟨"B", 240000, 240000⟩

/-- A drone exactly on the zone boundary: its distance to the nest is
exactly 100000, reached at `x = 150000`. -/
def droneEdge : Drone := ⟨"E", 150000, 250000⟩

/-- A registry record violating at timestamp 0 (microseconds). -/
def recP : PilotRecord := ⟨pilotP, 0, 2500⟩

/-! ### Claims -/

/-- Claim C1.  The spec says `expire` removes exactly the entries with
`now - time_of_violation > 600` seconds, regardless of how large the
elapsed time is, and this matches the code's stated intent ("if the crime
happened over 600 seconds -> 10 minutes ago").  The code instead tests
`difference.seconds > 600`, and Python's `timedelta.seconds` is only the
sub-day remainder: an entry whose violation lies 86401 seconds (one day
and one second) in the past has `difference.seconds = 1` and is retained,
even though an entry 601 seconds old is removed.  This theorem exhibits
the failing input: the elapsed time exceeds 600 seconds (first conjunct),
yet the entry is kept (second conjunct), while the same entry at 601
seconds of age is removed (third conjunct). -/
theorem C1_expire_day_wrap_bug :
    (86401000000 : ℤ) - recP.timeOfViolation > 600 * 1000000 ∧
    expire [("P", recP)] 86401000000 = [("P", recP)] ∧
    expire [("P", recP)] 601000000 = [] := by
  decide

/-- Claim C5.  The spec says a missing or corrupt store is read as an empty
registry and the cycle proceeds.  The `try`/`except` in `get_pilot_data`
only catches `json.decoder.JSONDecodeError`; the `open` call sits outside
it, so a missing `pilot_information.json` raises an uncaught
`FileNotFoundError` — contradicting the code's own comment that errors in
opening the file are caught.  This theorem evaluates the failing input: on
a missing store the call raises (first conjunct) and the cycle aborts with
the store left missing rather than proceeding on an empty registry
(second conjunct). -/
theorem C5_missing_store_fatal :
    get_pilot_data resolveP 5 [("A", ((5 : ℤ), (0 : ℚ)))] Store.missing =
      Except.error () ∧
    update_web_page (Except.ok [droneA]) resolveP 5 Store.missing =
      Store.missing := by
  refine ⟨rfl, ?_⟩
  norm_num [update_web_page, get_pilot_data, build_pilot_data,
    build_pilot_data_from, check_forbidden_coords, check_forbidden_coords_from,
    check_step, distSq, dictInsert, droneA, resolveP]

/-- Claim C7.  If the snapshot fetch raises, `update_web_page` aborts
before `check_forbidden_coords` and `get_pilot_data` run, so the persisted
registry after the cycle is the registry before the cycle, for every
resolver, clock value and prior store state. -/
theorem C7_fetch_failure_preserves_store
    (resolve : String → Except Unit PilotInfo) (now : ℤ) (store : Store) :
    update_web_page (Except.error ()) resolve now store = store := rfl

/-- Claim C9.  When the persisted store fails to parse, the
`JSONDecodeError` handler leaves `saved_pilot_info` empty and the merge
loop — which sits inside the `try` — is skipped, so the already-resolved
events of the current cycle are discarded; the file is then overwritten
with the expired empty registry.  Hence whenever the pilot fetches succeed
with any pilot data `pd`, running against a corrupt store yields the empty
registry: both the prior entries and the cycle's detections are lost. -/
theorem C9_corrupt_store_discards_events
    (resolve : String → Except Unit PilotInfo) (now : ℤ)
    (batch : List (String × (ℤ × ℚ))) (pd : List (String × PilotRecord))
    (h : build_pilot_data resolve batch = Except.ok pd) :
    get_pilot_data resolve now batch Store.corrupt =
      Except.ok (Store.good []) := by
  unfold get_pilot_data
  rw [h]
  rfl

/-- Witness for C9 at a concrete input: one resolved event `("A", (0, 25))`
whose pilot data is nonempty, against a corrupt store; the written registry
is empty. -/
theorem C9_corrupt_store_discards_events_witness :
    get_pilot_data resolveP 7 [("A", ((0 : ℤ), (25 : ℚ)))] Store.corrupt =
      Except.ok (Store.good []) :=
  C9_corrupt_store_discards_events resolveP 7 [("A", (0, 25))]
    [("P", ⟨pilotP, 0, 25⟩)] rfl

/-- Claim C2.  Merging one (event, pilot) pair into the registry: if the
pilot id is absent the event's record is appended as is (its
`timeOfViolation` is the event's detection time and its stored distance the
event's distance); if the pilot id is present, `timeOfViolation` is
overwritten unconditionally with the event's time and the stored distance
becomes the minimum of the existing and the event's distance (the source's
`if saved > new then saved = new` conditional overwrite). -/
theorem C2_merge_semantics (saved : Registry) (pid : String) (r : PilotRecord) :
    (dictFind saved pid = none → merge_one saved pid r = saved ++ [(pid, r)]) ∧
    (∀ old, dictFind saved pid = some old →
      dictFind (merge_one saved pid r) pid =
        some { old with
                 timeOfViolation := r.timeOfViolation
                 closestDistanceSq :=
                   min old.closestDistanceSq r.closestDistanceSq }) := by
  constructor
  · intro h
    unfold merge_one
    rw [h]
    exact dictInsert_of_find_none r h
  · intro old h
    unfold merge_one
    rw [h, dictFind_dictInsert, if_gt_eq_min]

/-- Witness for C2 at the spec's own scenario: pilot `"P1"` stored with
distance `5000²`-scale value 5000 at time 10; a new event at distance 8000,
time 11, arrives; the merged record keeps distance 5000 and advances the
time to 11. -/
theorem C2_merge_semantics_witness :
    dictFind (merge_one [("P1", ⟨pilotP, 10, 5000⟩)] "P1" ⟨pilotP, 11, 8000⟩)
      "P1" = some ⟨pilotP, 11, 5000⟩ := by
  have h := (C2_merge_semantics [("P1", ⟨pilotP, 10, 5000⟩)] "P1"
    ⟨pilotP, 11, 8000⟩).2 ⟨pilotP, 10, 5000⟩ (by rfl)
  have hmin : min (5000 : ℚ) 8000 = 5000 := by norm_num
  rw [hmin] at h
  exact h

/-- Claim C3, counterexample.  Two events that resolve to the same pilot id
within one merge call (serials "A" and "B", both resolving to pilot "P"):
processed as [A(time 0, distance 25), B(time 1, distance 36)] the final
record is (time 1, distance 36); processed in the opposite order it is
(time 0, distance 25).  The per-cycle `pilot_data` dict keeps only the
last-processed event for a pilot id (`pilot_data[pilotId] = json_object`
overwrites), so the result depends on the processing order — both the
stored distance (no min is taken: 36 survives over 25) and the time
differ. -/
theorem C3_merge_not_order_independent :
    get_pilot_data resolveP 1 [("A", (0, 25)), ("B", (1, 36))]
        (Store.good []) =
      Except.ok (Store.good [("P", ⟨pilotP, 1, 36⟩)]) ∧
    get_pilot_data resolveP 1 [("B", (1, 36)), ("A", (0, 25))]
        (Store.good []) =
      Except.ok (Store.good [("P", ⟨pilotP, 0, 25⟩)]) ∧
    Store.good [("P", (⟨pilotP, 1, 36⟩ : PilotRecord))] ≠
      Store.good [("P", ⟨pilotP, 0, 25⟩)] :=
  ⟨rfl, rfl, by decide⟩

/-- Claim C3, amended.  When two events of one batch resolve to the same
pilot, the later-processed one fully overwrites the earlier in the
per-cycle `pilot_data` dict, so the cycle's result equals the result of
merging the last event alone; order-independence holds only for batches
with at most one event per pilot id. -/
theorem C3_last_event_wins (resolve : String → Except Unit PilotInfo)
    (now : ℤ) (s₁ s₂ : String) (v₁ v₂ : ℤ × ℚ) (p : PilotInfo) (store : Store)
    (h₁ : resolve s₁ = Except.ok p) (h₂ : resolve s₂ = Except.ok p) :
    get_pilot_data resolve now [(s₁, v₁), (s₂, v₂)] store =
      get_pilot_data resolve now [(s₂, v₂)] store := by
  simp [get_pilot_data, build_pilot_data, build_pilot_data_from, h₁, h₂,
    dictInsert]

/-- Witness for C3's amended theorem at the counterexample's inputs. -/
theorem C3_last_event_wins_witness :
    get_pilot_data resolveP 1 [("A", ((0 : ℤ), (25 : ℚ))), ("B", (1, 36))]
        (Store.good []) =
      get_pilot_data resolveP 1 [("B", ((1 : ℤ), (36 : ℚ)))]
        (Store.good []) :=
  C3_last_event_wins resolveP 1 "A" "B" (0, 25) (1, 36) pilotP
    (Store.good []) rfl rfl

/-- Claim C6, counterexample.  Two violating drones "A" and "B"; pilot
resolution succeeds for "A" and raises for "B".  The source has no
try/except around the pilot fetch, so the exception propagates out of
`get_pilot_data`: the cycle aborts and the store is left unchanged — the
successfully resolvable event for "A" is NOT merged, expired or persisted,
contradicting the claim that only the failing drone's event is dropped.
The second conjunct records that the unchanged store differs from the one
the claim predicts (the empty registry with "A"'s event merged in). -/
theorem C6_pilot_failure_not_isolated :
    update_web_page (Except.ok [droneA, droneB]) resolveAB 5 (Store.good []) =
      Store.good [] ∧
    Store.good ([] : Registry) ≠
      Store.good [(pilotP.pilotId, ⟨pilotP, 5, 0⟩)] := by
  constructor
  · have hBA : ¬ ("B" : String) = "A" := by decide
    norm_num [update_web_page, get_pilot_data, build_pilot_data,
      build_pilot_data_from, check_forbidden_coords,
      check_forbidden_coords_from, check_step, distSq, dictInsert,
      droneA, droneB, resolveAB, hBA]
  · decide

/-- Claim C6, amended.  If pilot resolution raises for any violating drone
of the cycle, the exception propagates and the whole cycle aborts: no event
(including the resolvable ones) is merged, no expiry runs, and the
persisted store is left exactly as it was. -/
theorem C6_pilot_failure_aborts_cycle (drones : List Drone)
    (resolve : String → Except Unit PilotInfo) (now : ℤ) (store : Store)
    (h : ∃ e ∈ check_forbidden_coords now drones,
      resolve e.1 = Except.error ()) :
    update_web_page (Except.ok drones) resolve now store = store := by
  have hb : build_pilot_data resolve (check_forbidden_coords now drones) =
      Except.error () := build_pilot_data_from_error h
  have hg : get_pilot_data resolve now (check_forbidden_coords now drones)
      store = Except.error () := by
    unfold get_pilot_data
    rw [hb]
  simp only [update_web_page, hg]

/-- Witness for C6's amended theorem: drones "A" and "B" are both in the
zone, resolution fails for "B", the store is the empty good registry and
stays unchanged. -/
theorem C6_pilot_failure_aborts_cycle_witness :
    update_web_page (Except.ok [droneA, droneB]) resolveAB 5 (Store.good []) =
      Store.good [] := by
  refine C6_pilot_failure_aborts_cycle [droneA, droneB] resolveAB 5
    (Store.good []) ⟨("B", (5, 200000000)), ?_, rfl⟩
  have hAB : ¬ ("A" : String) = "B" := by decide
  norm_num [check_forbidden_coords, check_forbidden_coords_from, check_step,
    distSq, dictInsert, droneA, droneB, hAB]

/-- Claim C4, counterexample.  The drone `droneEdge` at `(150000, 250000)`
lies exactly on the zone boundary: its Euclidean distance to the center is
`sqrt(100000² + 0²) = 100000 ≤ 100000`, so the claim says it is included.
But the source's pre-filter `150000 < x_coord < 350000` is strict, so the
drone is excluded and `check_forbidden_coords` returns the empty dict. -/
theorem C4_boundary_drone_excluded :
    check_forbidden_coords 0 [droneEdge] = [] ∧
    Real.sqrt (((250000 : ℝ) - (droneEdge.positionX : ℝ)) ^ 2 +
      ((250000 : ℝ) - (droneEdge.positionY : ℝ)) ^ 2) ≤ 100000 := by
  constructor
  · norm_num [check_forbidden_coords, check_forbidden_coords_from,
      check_step, droneEdge]
  · have h1 : ((droneEdge.positionX : ℚ) : ℝ) = 150000 := by
      norm_num [droneEdge]
    have h2 : ((droneEdge.positionY : ℚ) : ℝ) = 250000 := by
      norm_num [droneEdge]
    rw [h1, h2]
    have h3 : ((250000 : ℝ) - 150000) ^ 2 + ((250000 : ℝ) - 250000) ^ 2 =
        100000 ^ 2 := by norm_num
    rw [h3, Real.sqrt_sq (by norm_num : (0 : ℝ) ≤ 100000)]

/-- Claim C4, amended.  A drone of a single-entry snapshot is reported iff
its x coordinate passes the source's strict pre-filter
`150000 < x < 350000` AND its Euclidean distance to `(250000, 250000)` is
at most 100000.  (For every drone other than the two boundary points
`(150000, 250000)` and `(350000, 250000)` this agrees with the claim's
`d ≤ 100000` criterion, since `d ≤ 100000` forces `150000 ≤ x ≤ 350000`.) -/
theorem C4_detect_iff (d : Drone) (now : ℤ) :
    check_forbidden_coords now [d] ≠ [] ↔
      (150000 < d.positionX ∧ d.positionX < 350000 ∧
        Real.sqrt (((250000 : ℝ) - (d.positionX : ℝ)) ^ 2 +
          ((250000 : ℝ) - (d.positionY : ℝ)) ^ 2) ≤ 100000) := by
  rw [← distSq_cast d.positionX d.positionY, sqrt_cast_le_iff]
  by_cases h1 : 150000 < d.positionX ∧ d.positionX < 350000
  · by_cases h2 : distSq d.positionX d.positionY ≤ 100000 * 100000
    · simp only [check_forbidden_coords, check_forbidden_coords_from,
        check_step, if_pos h1, if_pos h2, dictInsert]
      simp [h1.1, h1.2, h2]
    · simp only [check_forbidden_coords, check_forbidden_coords_from,
        check_step, if_pos h1, if_neg h2]
      simp [h2]
  · simp only [check_forbidden_coords, check_forbidden_coords_from,
      check_step, if_neg h1]
    constructor
    · intro hne
      exact absurd rfl hne
    · rintro ⟨ha, hb, -⟩
      exact absurd ⟨ha, hb⟩ h1

/-- Claim C8.  The embedded `check_forbidden_coords` (with the clock read
passed in as `now`) is a pure function: two runs on equal snapshots and
equal clock values return identical results, and every emitted entry
carries `detected_at = now`. -/
theorem C8_detect_deterministic (drones₁ drones₂ : List Drone)
    (now₁ now₂ : ℤ) (hd : drones₁ = drones₂) (hn : now₁ = now₂) :
    check_forbidden_coords now₁ drones₁ = check_forbidden_coords now₂ drones₂ ∧
    ∀ e ∈ check_forbidden_coords now₁ drones₁, e.2.1 = now₁ := by
  subst hd
  subst hn
  exact ⟨rfl, fun e he => (check_mem he).1⟩

/-- Witness for C8 on the snapshot `[droneA]` at clock value 5: the two
runs agree and the emitted entry's timestamp is 5. -/
theorem C8_detect_deterministic_witness :
    check_forbidden_coords 5 [droneA] = check_forbidden_coords 5 [droneA] ∧
    (("A", ((5 : ℤ), (0 : ℚ))) : String × ℤ × ℚ).2.1 = 5 := by
  have h := C8_detect_deterministic [droneA] [droneA] 5 5 rfl rfl
  refine ⟨h.1, h.2 ("A", (5, 0)) ?_⟩
  norm_num [check_forbidden_coords, check_forbidden_coords_from, check_step,
    distSq, dictInsert, droneA]

/-- Every entry of a good registry has a nonnegative stored distance of at
most 100000 (stated through `Real.sqrt` of the stored square, which is the
distance the source stores). -/
def registry_distance_ok (reg : Registry) : Prop :=
  ∀ e ∈ reg, 0 ≤ Real.sqrt ((e.2.closestDistanceSq : ℝ)) ∧
    Real.sqrt ((e.2.closestDistanceSq : ℝ)) ≤ 100000

/-- The distance invariant on a store state; a missing or corrupt store
has no entries. -/
def store_distance_ok : Store → Prop
  | Store.good reg => registry_distance_ok reg
  | _ => True

/-- Claim C10.  The distance invariant is preserved by every cycle: a
record only enters the registry with a distance that passed the
`d ≤ 100000` check (and a Euclidean distance is nonnegative), and an
existing record's distance is only ever replaced by the smaller observed
one, so if every entry of the persisted registry satisfies
`0 ≤ closest_distance ≤ 100000` before a cycle, then so does every entry
after it, whatever the snapshot fetch, the resolver and the clock do. -/
theorem C10_distance_invariant (droneData : Except Unit (List Drone))
    (resolve : String → Except Unit PilotInfo) (now : ℤ) (store : Store)
    (h : store_distance_ok store) :
    store_distance_ok (update_web_page droneData resolve now store) := by
  cases droneData with
  | error e => exact h
  | ok drones =>
    cases hb : build_pilot_data resolve (check_forbidden_coords now drones) with
    | error e =>
        have hg : get_pilot_data resolve now (check_forbidden_coords now drones)
            store = Except.error e := by
          unfold get_pilot_data
          rw [hb]
        simpa [update_web_page, hg] using h
    | ok pd =>
        have hb' : build_pilot_data_from resolve []
            (check_forbidden_coords now drones) = Except.ok pd := hb
        have hpd : ∀ r ∈ pd, r.2.closestDistanceSq ≤ 100000 * 100000 := by
          refine build_pilot_data_from_mem (P := fun q => q ≤ 100000 * 100000)
            (fun e he => (check_mem he).2.2) ?_ hb'
          intro r hr
          simp at hr
        cases store with
        | missing =>
            have hg : get_pilot_data resolve now
                (check_forbidden_coords now drones) Store.missing =
                Except.error () := by
              unfold get_pilot_data
              rw [hb]
            simp [update_web_page, hg, store_distance_ok]
        | corrupt =>
            have hg : get_pilot_data resolve now
                (check_forbidden_coords now drones) Store.corrupt =
                Except.ok (Store.good (expire [] now)) := by
              unfold get_pilot_data
              rw [hb]
            simp only [update_web_page, hg]
            intro e he
            simp [expire] at he
        | good saved =>
            have hg : get_pilot_data resolve now
                (check_forbidden_coords now drones) (Store.good saved) =
                Except.ok (Store.good (expire (merge_all saved pd) now)) := by
              unfold get_pilot_data
              rw [hb]
            have hsaved : ∀ e ∈ saved, e.2.closestDistanceSq ≤ 100000 * 100000 := by
              intro e he
              exact (sqrt_cast_le_iff _).mp (h e he).2
            have hmerged := merge_all_mem (P := fun q => q ≤ 100000 * 100000)
              hsaved hpd
            simp only [update_web_page, hg]
            intro e he
            have hq := hmerged e (expire_mem he)
            exact ⟨Real.sqrt_nonneg _, (sqrt_cast_le_iff _).mpr hq⟩

/-- Witness for C10: starting from the empty good registry (which
trivially satisfies the invariant), the cycle on the snapshot `[droneA]`
preserves the invariant. -/
theorem C10_distance_invariant_witness :
    store_distance_ok (update_web_page (Except.ok [droneA]) resolveP 5
      (Store.good [])) := by
  refine C10_distance_invariant (Except.ok [droneA]) resolveP 5
    (Store.good []) ?_
  intro e he
  simp at he
